import Mathlib

set_option maxHeartbeats 1000000

namespace Scribe

/-- Action kinds of a recorded Step (ActionType in the shared type definitions). -/
inductive Action
  | click
  | input
  | change
  | submit
  | navigation
  | page_load
deriving DecidableEq, Repr

/-- A recorded Step: sequence id, action kind, capture timestamp, page url and
title, and an optional screenshot string (a data url in the source). -/
structure Step where
  id : Nat
  action : Action
  timestamp : Nat
  url : String
  title : String
  screenshot : Option String := none
deriving DecidableEq, Repr

/-- The process-wide recording state (interface RecordingState in the state
module).  DOM element references are modelled as natural-number identities;
tab identifiers as optional integers (null modelled as none); times in ms. -/
structure RecordingState where
  isRecording : Bool
  steps : List Step
  stepCounter : Nat
  lastClickTime : Nat
  lastClickTarget : Option Nat
  lastClickCoordinates : Option (Int × Int)
  currentUrl : String
  lastActionTime : Nat
  lastActionType : Option String
  capturedPageLoads : List String
  clickCausedNavigation : Bool
  recordingTabId : Option Int
  currentTabId : Option Int
deriving DecidableEq, Repr

/-- A click event as seen by the click handler: the event target (element
identity) and client coordinates.  Coordinates are modelled as integers, so
the Math.round in the source is the identity and is omitted. -/
structure ClickEvent where
  target : Nat
  clientX : Int
  clientY : Int
deriving DecidableEq, Repr

/-- Rapid-fire duplicate test of the click handler: the previous accepted
action was a click less than 200ms ago and either the same target or both
coordinate deltas are below 10px. -/
def rapidFireDuplicate (s : RecordingState) (now : Nat) (e : ClickEvent) : Bool :=
  (s.lastActionType == some "click") && (now - s.lastActionTime < 200) &&
    ((s.lastClickTarget == some e.target) ||
      (match s.lastClickCoordinates with
       | some p => ((p.1 - e.clientX).natAbs < 10) && ((p.2 - e.clientY).natAbs < 10)
       | none => false))

/-- Traditional duplicate test of the click handler: same target, both
coordinate deltas below 5px, and less than 500ms since the last click. -/
def proximityDuplicate (s : RecordingState) (now : Nat) (e : ClickEvent) : Bool :=
  (s.lastClickTarget == some e.target) &&
    (match s.lastClickCoordinates with
     | some p => ((p.1 - e.clientX).natAbs < 5) && ((p.2 - e.clientY).natAbs < 5)
     | none => false) &&
  (now - s.lastClickTime < 500)

/-- Deduplication portion of handleClick (createClickHandler in the event
handler module): returns none when the click is discarded as a duplicate,
otherwise the state with the dedup bookkeeping updated. -/
def handleClickDedup (s : RecordingState) (now : Nat) (e : ClickEvent) :
    Option RecordingState :=
  if rapidFireDuplicate s now e then none
  else if proximityDuplicate s now e then none
  else some { s with
    lastClickTime := now
    lastActionTime := now
    lastActionType := some "click"
    lastClickTarget := some e.target
    lastClickCoordinates := some (e.clientX, e.clientY) }

/-- Propositional reading of the rapid-fire duplicate test. -/
lemma rapidFireDuplicate_iff (s : RecordingState) (now : Nat) (e : ClickEvent) :
    rapidFireDuplicate s now e = true ↔
      (s.lastActionType = some "click" ∧ now - s.lastActionTime < 200 ∧
        (s.lastClickTarget = some e.target ∨
          ∃ p, s.lastClickCoordinates = some p ∧
            (p.1 - e.clientX).natAbs < 10 ∧ (p.2 - e.clientY).natAbs < 10)) := by
  cases hc : s.lastClickCoordinates with
  | none => simp [rapidFireDuplicate, hc, and_assoc]
  | some p => simp [rapidFireDuplicate, hc, and_assoc]

/-- Propositional reading of the proximity duplicate test. -/
lemma proximityDuplicate_iff (s : RecordingState) (now : Nat) (e : ClickEvent) :
    proximityDuplicate s now e = true ↔
      (s.lastClickTarget = some e.target ∧
        (∃ p, s.lastClickCoordinates = some p ∧
          (p.1 - e.clientX).natAbs < 5 ∧ (p.2 - e.clientY).natAbs < 5) ∧
        now - s.lastClickTime < 500) := by
  cases hc : s.lastClickCoordinates with
  | none => simp [proximityDuplicate, hc, and_assoc]
  | some p => simp [proximityDuplicate, hc, and_assoc]

/-- Dedup decision in terms of the two duplicate tests. -/
lemma handleClickDedup_eq_none_iff (s : RecordingState) (now : Nat) (e : ClickEvent) :
    handleClickDedup s now e = none ↔
      (rapidFireDuplicate s now e = true ∨ proximityDuplicate s now e = true) := by
  simp only [handleClickDedup]
  split
  · simp [*]
  · split
    · simp [*]
    · simp [*]

/-- C4: a click is discarded exactly when either (i) the previous accepted
action was a click less than 200ms earlier and (same target or both
coordinate deltas < 10px), or (ii) the previous accepted click targeted the
same element with both coordinate deltas < 5px and less than 500ms elapsed;
otherwise it is accepted and the dedup bookkeeping (last target, last
coordinates, last times, last action kind) is updated. -/
theorem click_dedup_characterization (s : RecordingState) (now : Nat) (e : ClickEvent) :
    (handleClickDedup s now e = none ↔
      (s.lastActionType = some "click" ∧ now - s.lastActionTime < 200 ∧
        (s.lastClickTarget = some e.target ∨
          ∃ p, s.lastClickCoordinates = some p ∧
            (p.1 - e.clientX).natAbs < 10 ∧ (p.2 - e.clientY).natAbs < 10)) ∨
      (s.lastClickTarget = some e.target ∧
        (∃ p, s.lastClickCoordinates = some p ∧
          (p.1 - e.clientX).natAbs < 5 ∧ (p.2 - e.clientY).natAbs < 5) ∧
        now - s.lastClickTime < 500)) ∧
    (∀ s2, handleClickDedup s now e = some s2 →
      s2.lastClickTarget = some e.target ∧
      s2.lastClickCoordinates = some (e.clientX, e.clientY) ∧
      s2.lastClickTime = now ∧ s2.lastActionTime = now ∧
      s2.lastActionType = some "click") := by
  constructor
  · rw [handleClickDedup_eq_none_iff, rapidFireDuplicate_iff, proximityDuplicate_iff]
  · intro s2 h
    simp only [handleClickDedup] at h
    split at h
    · exact absurd h (by simp)
    · split at h
      · exact absurd h (by simp)
      · cases h
        simp

/-- Witness for C4: at a concrete state a rapid-fire same-target click 100ms
after the previous click is discarded. -/
theorem click_dedup_characterization_witness :
    handleClickDedup
      { isRecording := true, steps := [], stepCounter := 0,
        lastClickTime := 0, lastClickTarget := some 7,
        lastClickCoordinates := some (50, 60), currentUrl := "https://a/",
        lastActionTime := 0, lastActionType := some "click",
        capturedPageLoads := [], clickCausedNavigation := false,
        recordingTabId := none, currentTabId := none }
      100 { target := 7, clientX := 300, clientY := 400 } = none := by
  exact (click_dedup_characterization _ _ _).1.mpr
    (Or.inl ⟨rfl, by decide, Or.inl rfl⟩)

/-- JavaScript truthiness of an optional numeric field: null and 0 are falsy. -/
def truthyNum : Option Int → Bool
  | some n => n != 0
  | none => false

/-- isRecordingTab from the state module: when either identifier is unset the
context is assumed to be the recording tab, otherwise the identifiers must
agree. -/
def isRecordingTab (recordingTabId currentTabId : Option Int) : Bool :=
  match recordingTabId, currentTabId with
  | none, _ => true
  | _, none => true
  | some r, some c => r == c

/-- checkRecordingTab from the state module.  cur0 is the state currentTabId
when the check starts; when the recording id is set and cur0 is unknown the
persisted recordingTabId (storageRec) is read, and the state currentTabId is
re-read afterwards (cur1, possibly updated while awaiting).  Truthiness of
the JavaScript guard is modelled by truthyNum.  In every remaining case the
result falls back to isRecordingTab on the identifiers currently visible. -/
def checkRecordingTab (recId cur0 storageRec cur1 : Option Int) : Bool :=
  if recId != none && cur0 == none then
    if truthyNum storageRec && truthyNum cur1 then storageRec == cur1
    else isRecordingTab recId cur1
  else isRecordingTab recId cur0

/-- Result of one captureScreenshot message exchange: err models a rejected
promise (timeout or messaging error); ok carries the optional screenshot of
the response (none when the response or its screenshot field is absent). -/
inductive ShotResult
  | ok (img : Option String)
  | err
deriving DecidableEq, Repr

/-- JavaScript truthiness of the screenshot field of a response: only a
present, nonempty string is kept; every failure yields none. -/
def shotValue : ShotResult → Option String
  | .ok (some s) => if s == "" then none else some s
  | .ok none => none
  | .err => none

/-- captureScreenshotForClick: a single attempt with a 3s timeout; the
try/catch turns every failure path into an unset screenshot. -/
def captureScreenshotForClick (r : ShotResult) : Option String := shotValue r

/-- Retry loop of captureScreenshotForNavigation: up to 3 attempts, stopping
at the first attempt whose response carries a nonempty screenshot; an
exception of an attempt is caught inside the loop and leads to the next
attempt. -/
def navigationShotLoop (env : Nat → ShotResult) : Nat → Nat → Option String
  | 0, _ => none
  | fuel + 1, attempt =>
      match shotValue (env (attempt + 1)) with
      | some s => some s
      | none => navigationShotLoop env fuel (attempt + 1)

/-- captureScreenshotForNavigation: after the bounded page-ready wait and the
settle delay, at most 3 attempts with a 10s timeout each. -/
def captureScreenshotForNavigation (env : Nat → ShotResult) : Option String :=
  navigationShotLoop env 3 0

/-- captureScreenshotForOther (input, change, submit): a single attempt with
a 100ms pre-delay and a 5s timeout; failures are caught. -/
def captureScreenshotForOther (r : ShotResult) : Option String := shotValue r

/-- Screenshot acquisition dispatch of captureStep, by action kind. -/
def acquireScreenshot (action : Action) (env : Nat → ShotResult) : Option String :=
  match action with
  | .click => captureScreenshotForClick (env 1)
  | .navigation => captureScreenshotForNavigation env
  | .page_load => captureScreenshotForNavigation env
  | _ => captureScreenshotForOther (env 1)

/-- Environment of one captureStep call: the persisted recordingTabId and the
state currentTabId as visible after the storage await (feeding
checkRecordingTab), the screenshot responses of the successive attempts, the
clock, and the window url and document title at step-construction time. -/
structure CaptureEnv where
  storageRecordingTabId : Option Int
  currentTabIdAfterAwait : Option Int
  shots : Nat → ShotResult
  now : Nat
  windowUrl : String
  windowTitle : String

/-- captureStep from the step-capture module: the recording-tab ownership
check, the synchronous sequence-number assignment, the per-kind screenshot
acquisition, and the append plus persistence of the finished Step.  Returns
the new state together with the Step handed to storage and the background
script (none when the event was discarded by the ownership check).  The
function never reads isRecording. -/
def captureStep (s : RecordingState) (env : CaptureEnv) (action : Action) :
    RecordingState × Option Step :=
  if !(checkRecordingTab s.recordingTabId s.currentTabId
        env.storageRecordingTabId env.currentTabIdAfterAwait) then
    (s, none)
  else
    let stepCounter := s.stepCounter + 1
    let step : Step :=
      { id := stepCounter, action := action, timestamp := env.now,
        url := env.windowUrl, title := env.windowTitle,
        screenshot := acquireScreenshot action env.shots }
    ({ s with stepCounter := stepCounter, steps := s.steps ++ [step] }, some step)

/-- Internal events of one accepted captureStep call. -/
inductive CaptureOp
  | ownershipCheck
  | assignSequence (n : Nat)
  | screenshotWait (action : Action)
  | appendStep (n : Nat)
  | persistSteps
  | notifyBackground
deriving DecidableEq, Repr

/-- Execution-order trace of an accepted captureStep call, mirroring the
statement order of the source: the ownership check, the synchronous
sequence-number assignment, the awaited screenshot acquisition, and finally
the append, the storage write and the background notification. -/
def captureStepTrace (s : RecordingState) (action : Action) : List CaptureOp :=
  [.ownershipCheck, .assignSequence (s.stepCounter + 1), .screenshotWait action,
   .appendStep (s.stepCounter + 1), .persistSteps, .notifyBackground]

/-- A recording session's accepted events processed by captureStep in event
order, threading the state; collects every produced Step. -/
def runCaptureSteps (s : RecordingState) :
    List (CaptureEnv × Action) → RecordingState × List Step
  | [] => (s, [])
  | (env, a) :: rest =>
      let r1 := captureStep s env a
      let r2 := runCaptureSteps r1.1 rest
      (r2.1, r1.2.toList ++ r2.2)

/-- Run invariant: the counter never decreases and every produced Step id
lies strictly above the starting counter and at most at the final counter,
listed in strictly increasing order. -/
lemma runCaptureSteps_ids (s : RecordingState) (evts : List (CaptureEnv × Action)) :
    s.stepCounter ≤ (runCaptureSteps s evts).1.stepCounter ∧
    List.Chain' (· < ·) ((runCaptureSteps s evts).2.map Step.id) ∧
    ∀ x ∈ (runCaptureSteps s evts).2.map Step.id,
      s.stepCounter < x ∧ x ≤ (runCaptureSteps s evts).1.stepCounter := by
  induction evts generalizing s with
  | nil => simp [runCaptureSteps]
  | cons e rest ih =>
    obtain ⟨env, a⟩ := e
    simp only [runCaptureSteps]
    by_cases hc : checkRecordingTab s.recordingTabId s.currentTabId
        env.storageRecordingTabId env.currentTabIdAfterAwait = true
    · have h1 : (captureStep s env a).1.stepCounter = s.stepCounter + 1 := by
        simp [captureStep, hc]
      have h2 : (captureStep s env a).2.toList.map Step.id = [s.stepCounter + 1] := by
        simp [captureStep, hc]
      obtain ⟨ih1, ih2, ih3⟩ := ih (captureStep s env a).1
      rw [h1] at ih1 ih3
      refine ⟨by omega, ?_, ?_⟩
      · rw [List.map_append, h2]
        simp only [List.singleton_append, List.chain'_cons']
        refine ⟨?_, ih2⟩
        intro y hy
        have hmem : y ∈ (runCaptureSteps (captureStep s env a).1 rest).2.map Step.id :=
          List.mem_of_mem_head? hy
        have := ih3 y hmem
        omega
      · intro x hx
        rw [List.map_append, h2] at hx
        simp only [List.singleton_append, List.mem_cons] at hx
        rcases hx with rfl | hx
        · have := ih1; omega
        · have := ih3 x hx
          omega
    · have hcf : checkRecordingTab s.recordingTabId s.currentTabId
          env.storageRecordingTabId env.currentTabIdAfterAwait = false :=
        Bool.eq_false_iff.mpr hc
      have hstep : captureStep s env a = (s, none) := by
        simp [captureStep, hcf]
      rw [hstep]
      simpa using ih s

/-- C2: sequence numbers are assigned exactly once at acceptance time,
synchronously before the asynchronous screenshot wait, and over a session
the produced Step ids are strictly increasing and pairwise distinct. -/
theorem sequence_assignment (s : RecordingState) (evts : List (CaptureEnv × Action)) :
    List.Chain' (· < ·) ((runCaptureSteps s evts).2.map Step.id) ∧
    ((runCaptureSteps s evts).2.map Step.id).Nodup ∧
    (∀ a, ∃ i j : Nat, i < j ∧
      (captureStepTrace s a)[i]? = some (CaptureOp.assignSequence (s.stepCounter + 1)) ∧
      (captureStepTrace s a)[j]? = some (CaptureOp.screenshotWait a)) := by
  have h := runCaptureSteps_ids s evts
  refine ⟨h.2.1, ?_, ?_⟩
  · have hp : ((runCaptureSteps s evts).2.map Step.id).Pairwise (· < ·) :=
      List.chain'_iff_pairwise.mp h.2.1
    exact hp.imp Nat.ne_of_lt
  · intro a
    exact ⟨1, 2, by omega, rfl, rfl⟩

/-- Witness for C2: trace ordering at a concrete state. -/
theorem sequence_assignment_witness :
    ((runCaptureSteps
        { isRecording := true, steps := [], stepCounter := 0,
          lastClickTime := 0, lastClickTarget := none,
          lastClickCoordinates := none, currentUrl := "https://a/",
          lastActionTime := 0, lastActionType := none,
          capturedPageLoads := [], clickCausedNavigation := false,
          recordingTabId := none, currentTabId := none } []).2.map Step.id).Nodup := by
  exact (sequence_assignment _ []).2.1

/-- Helper: when every attempt fails, the navigation retry loop yields none. -/
lemma navigationShotLoop_all_fail (env : Nat → ShotResult)
    (h : ∀ k, shotValue (env k) = none) :
    ∀ fuel attempt, navigationShotLoop env fuel attempt = none := by
  intro fuel
  induction fuel with
  | zero => intro attempt; rfl
  | succ n ih =>
    intro attempt
    simp [navigationShotLoop, h (attempt + 1), ih]

/-- C3: screenshot acquisition never propagates an exception: for every
action kind and every environment (including all-failing ones) the Step is
still constructed, appended and handed to persistence, and when every
attempt times out, errors or returns an empty response, its screenshot
field is unset. -/
theorem screenshot_failure_never_blocks (s : RecordingState) (env : CaptureEnv)
    (action : Action)
    (hown : checkRecordingTab s.recordingTabId s.currentTabId
      env.storageRecordingTabId env.currentTabIdAfterAwait = true) :
    ∃ st, (captureStep s env action).2 = some st ∧
      (captureStep s env action).1.steps = s.steps ++ [st] ∧
      st.screenshot = acquireScreenshot action env.shots ∧
      ((∀ k, shotValue (env.shots k) = none) → st.screenshot = none) := by
  refine ⟨{ id := s.stepCounter + 1, action := action, timestamp := env.now,
            url := env.windowUrl, title := env.windowTitle,
            screenshot := acquireScreenshot action env.shots }, ?_, ?_, rfl, ?_⟩
  · simp [captureStep, hown]
  · simp [captureStep, hown]
  · intro h
    cases action <;>
      simp [acquireScreenshot, captureScreenshotForClick, captureScreenshotForOther,
        captureScreenshotForNavigation, navigationShotLoop_all_fail env.shots h, h]

/-- Witness for C3: with a timing-out environment the click Step is still
produced, appended, and carries no screenshot. -/
theorem screenshot_failure_never_blocks_witness :
    ∃ st, (captureStep
        { isRecording := true, steps := [], stepCounter := 0,
          lastClickTime := 0, lastClickTarget := none,
          lastClickCoordinates := none, currentUrl := "https://a/",
          lastActionTime := 0, lastActionType := none,
          capturedPageLoads := [], clickCausedNavigation := false,
          recordingTabId := none, currentTabId := none }
        { storageRecordingTabId := none, currentTabIdAfterAwait := none,
          shots := fun _ => .err, now := 0, windowUrl := "https://a/",
          windowTitle := "A" } .click).2 = some st ∧
      st.screenshot = none := by
  obtain ⟨st, h1, _, _, h4⟩ := screenshot_failure_never_blocks
    { isRecording := true, steps := [], stepCounter := 0,
      lastClickTime := 0, lastClickTarget := none,
      lastClickCoordinates := none, currentUrl := "https://a/",
      lastActionTime := 0, lastActionType := none,
      capturedPageLoads := [], clickCausedNavigation := false,
      recordingTabId := none, currentTabId := none }
    { storageRecordingTabId := none, currentTabIdAfterAwait := none,
      shots := fun _ => .err, now := 0, windowUrl := "https://a/",
      windowTitle := "A" } .click rfl
  exact ⟨st, h1, h4 fun k => rfl⟩

/-- Counterexample for C5 as stated: the owner identifier is recorded
(tab 1) and the local identifier is undetermined both before and after the
storage retry, so ownership is not confirmed; yet the ownership check
succeeds and the event produces a Step. -/
theorem ownership_default_counterexample :
    checkRecordingTab (some 1) none (some 1) none = true ∧
    ((captureStep
        { isRecording := true, steps := [], stepCounter := 0,
          lastClickTime := 0, lastClickTarget := none,
          lastClickCoordinates := none, currentUrl := "https://a/",
          lastActionTime := 0, lastActionType := none,
          capturedPageLoads := [], clickCausedNavigation := false,
          recordingTabId := some 1, currentTabId := none }
        { storageRecordingTabId := some 1, currentTabIdAfterAwait := none,
          shots := fun _ => ShotResult.err, now := 0, windowUrl := "https://a/",
          windowTitle := "A" } Action.click).2).isSome = true := by
  exact ⟨rfl, rfl⟩

/-- C5 amended: when the local context identifier cannot be determined
synchronously, the ownership check is retried against persisted storage; an
event whose determined local identifier differs from the recorded owner
(directly, or via the persisted owner compared with a meanwhile-determined
local identifier) produces no Step; but when the local identifier remains
undetermined after the retry, ownership is assumed and a Step is produced. -/
theorem ownership_check_amended (s : RecordingState) (env : CaptureEnv) (a : Action) :
    ((captureStep s env a).2 = none ↔
      checkRecordingTab s.recordingTabId s.currentTabId
        env.storageRecordingTabId env.currentTabIdAfterAwait = false) ∧
    (∀ r c, s.recordingTabId = some r → s.currentTabId = some c → r ≠ c →
      checkRecordingTab s.recordingTabId s.currentTabId
        env.storageRecordingTabId env.currentTabIdAfterAwait = false) ∧
    (s.recordingTabId ≠ none → s.currentTabId = none →
      truthyNum env.storageRecordingTabId = true →
      truthyNum env.currentTabIdAfterAwait = true →
      (checkRecordingTab s.recordingTabId s.currentTabId
          env.storageRecordingTabId env.currentTabIdAfterAwait = true ↔
        env.storageRecordingTabId = env.currentTabIdAfterAwait)) ∧
    (s.currentTabId = none → env.currentTabIdAfterAwait = none →
      checkRecordingTab s.recordingTabId s.currentTabId
        env.storageRecordingTabId env.currentTabIdAfterAwait = true) := by
  refine ⟨?_, ?_, ?_, ?_⟩
  · by_cases hc : checkRecordingTab s.recordingTabId s.currentTabId
        env.storageRecordingTabId env.currentTabIdAfterAwait = true
    · simp [captureStep, hc]
    · have hcf := Bool.eq_false_iff.mpr hc
      simp [captureStep, hcf]
  · intro r c hr hc0 hrc
    simp [checkRecordingTab, hr, hc0, isRecordingTab, hrc]
  · intro hrec hcur0 ht1 ht2
    obtain ⟨r, hr⟩ := Option.ne_none_iff_exists.mp hrec
    simp [checkRecordingTab, ← hr, hcur0, ht1, ht2]
  · intro h0 h1
    have ht : truthyNum env.currentTabIdAfterAwait = false := by
      simp [truthyNum, h1]
    cases hr : s.recordingTabId <;>
      simp [checkRecordingTab, h0, h1, ht, isRecordingTab, truthyNum]

/-- Witness for C5 amended: a context whose known tab id 2 differs from the
recorded owner 1 produces no Step. -/
theorem ownership_check_amended_witness :
    (captureStep
        { isRecording := true, steps := [], stepCounter := 0,
          lastClickTime := 0, lastClickTarget := none,
          lastClickCoordinates := none, currentUrl := "https://a/",
          lastActionTime := 0, lastActionType := none,
          capturedPageLoads := [], clickCausedNavigation := false,
          recordingTabId := some 1, currentTabId := some 2 }
        { storageRecordingTabId := some 1, currentTabIdAfterAwait := some 2,
          shots := fun _ => ShotResult.err, now := 0, windowUrl := "https://a/",
          windowTitle := "A" } Action.click).2 = none := by
  have h := ownership_check_amended
    { isRecording := true, steps := [], stepCounter := 0,
      lastClickTime := 0, lastClickTarget := none,
      lastClickCoordinates := none, currentUrl := "https://a/",
      lastActionTime := 0, lastActionType := none,
      capturedPageLoads := [], clickCausedNavigation := false,
      recordingTabId := some 1, currentTabId := some 2 }
    { storageRecordingTabId := some 1, currentTabIdAfterAwait := some 2,
      shots := fun _ => ShotResult.err, now := 0, windowUrl := "https://a/",
      windowTitle := "A" } Action.click
  exact h.1.mpr (h.2.1 1 2 rfl rfl (by decide))

/-- JavaScript a || b on an optional string and a fallback: null, undefined
and the empty string select the fallback. -/
def jsOr (a : Option String) (b : String) : String :=
  match a with
  | some s => if s == "" then b else s
  | none => b

/-- JavaScript truthiness filter for an optional string field (screenshot is
stored as undefined when absent or empty). -/
def jsTruthyString : Option String → Option String
  | some s => if s == "" then none else some s
  | none => none

/-- captureStepWithScreenshot from the step-capture module: ownership check,
synchronous sequence-number assignment, Step construction with the
pre-captured screenshot and the optional url/title overrides, append, and
persistence.  Returns the new state and the persisted Step (none when the
ownership check discards the event). -/
def captureStepWithScreenshot (s : RecordingState) (env : CaptureEnv)
    (action : Action) (shot : Option String)
    (urlOverride titleOverride : Option String) :
    RecordingState × Option Step :=
  if !(checkRecordingTab s.recordingTabId s.currentTabId
        env.storageRecordingTabId env.currentTabIdAfterAwait) then
    (s, none)
  else
    let stepCounter := s.stepCounter + 1
    let step : Step :=
      { id := stepCounter, action := action, timestamp := env.now,
        url := jsOr urlOverride env.windowUrl,
        title := jsOr titleOverride env.windowTitle,
        screenshot := jsTruthyString shot }
    ({ s with stepCounter := stepCounter, steps := s.steps ++ [step] }, some step)

/-- A hyperlink as seen by the click handler: resolved href and the target
attribute of the anchor element. -/
structure LinkInfo where
  href : String
  target : String
deriving DecidableEq, Repr

/-- Observable effects of the navigation branch of the click handler, in
execution order. -/
inductive ClickEffect
  | preventDefault
  | stopPropagation
  | requestScreenshot
  | persistStep (st : Step)
  | scheduleNavigate (delayMs : Nat) (newView : Bool) (href : String)
deriving DecidableEq, Repr

/-- Navigation branch of the click handler (willNavigate true and a link
element present): the default action and propagation are suppressed, a
screenshot of the current page is requested, the Step is assembled with the
url and title captured at click time and persisted, and only then is the
programmatic navigation scheduled with a fixed 150ms delay - window.open in
a new view when the link targets _blank, a location assignment otherwise.
The screenshot response is reduced by JavaScript truthiness (errors and
empty responses become null). -/
def navigationClickBranch (s : RecordingState) (env : CaptureEnv)
    (pageUrl pageTitle : String) (link : LinkInfo) (shot : ShotResult) :
    RecordingState × List ClickEffect :=
  let screenshot := shotValue shot
  let r := captureStepWithScreenshot s env Action.click screenshot
    (some pageUrl) (some pageTitle)
  let persistEffects : List ClickEffect :=
    match r.2 with
    | some st => [ClickEffect.persistStep st]
    | none => []
  let navEffects : List ClickEffect :=
    if link.href != "" then
      [ClickEffect.scheduleNavigate 150 (link.target == "_blank") link.href]
    else []
  (r.1,
    [ClickEffect.preventDefault, ClickEffect.stopPropagation,
     ClickEffect.requestScreenshot] ++ persistEffects ++ navEffects)

/-- C1: for a navigation-causing click with a link element, default
navigation is suppressed, the persisted Step carries the url and title
captured at click time (never the destination), and the programmatic
navigation (new view for _blank targets, location assignment otherwise) is
scheduled only after the Step is persisted, with a fixed 150ms delay. -/
theorem navigation_click_ordering (s : RecordingState) (env : CaptureEnv)
    (pageUrl pageTitle : String) (link : LinkInfo) (shot : ShotResult)
    (hown : checkRecordingTab s.recordingTabId s.currentTabId
      env.storageRecordingTabId env.currentTabIdAfterAwait = true)
    (hurl : pageUrl ≠ "") (htitle : pageTitle ≠ "") (hhref : link.href ≠ "") :
    ∃ st, (navigationClickBranch s env pageUrl pageTitle link shot).2 =
        [ClickEffect.preventDefault, ClickEffect.stopPropagation,
         ClickEffect.requestScreenshot, ClickEffect.persistStep st,
         ClickEffect.scheduleNavigate 150 (link.target == "_blank") link.href] ∧
      st.url = pageUrl ∧ st.title = pageTitle ∧
      (link.href ≠ pageUrl → st.url ≠ link.href) ∧
      (∃ i j : Nat, i < j ∧
        (navigationClickBranch s env pageUrl pageTitle link shot).2[i]? =
          some (ClickEffect.persistStep st) ∧
        (navigationClickBranch s env pageUrl pageTitle link shot).2[j]? =
          some (ClickEffect.scheduleNavigate 150 (link.target == "_blank") link.href)) := by
  have hu : jsOr (some pageUrl) env.windowUrl = pageUrl := by
    simp [jsOr, hurl]
  have ht : jsOr (some pageTitle) env.windowTitle = pageTitle := by
    simp [jsOr, htitle]
  have hcap : (captureStepWithScreenshot s env Action.click (shotValue shot)
      (some pageUrl) (some pageTitle)).2 =
      some { id := s.stepCounter + 1, action := Action.click, timestamp := env.now,
             url := pageUrl, title := pageTitle,
             screenshot := jsTruthyString (shotValue shot) } := by
    simp [captureStepWithScreenshot, hown, hu, ht]
  refine ⟨{ id := s.stepCounter + 1, action := Action.click, timestamp := env.now,
            url := pageUrl, title := pageTitle,
            screenshot := jsTruthyString (shotValue shot) }, ?_, rfl, rfl, ?_, ?_⟩
  · simp [navigationClickBranch, hcap, hhref]
  · intro hne heq
    exact hne heq.symm
  · refine ⟨3, 4, by omega, ?_, ?_⟩ <;>
      simp [navigationClickBranch, hcap, hhref]

/-- Witness for C1 at a concrete click: a link to https://x/y from
https://a/ with a _blank target. -/
theorem navigation_click_ordering_witness :
    ∃ st, (navigationClickBranch
        { isRecording := true, steps := [], stepCounter := 0,
          lastClickTime := 0, lastClickTarget := none,
          lastClickCoordinates := none, currentUrl := "https://a/",
          lastActionTime := 0, lastActionType := none,
          capturedPageLoads := [], clickCausedNavigation := false,
          recordingTabId := none, currentTabId := none }
        { storageRecordingTabId := none, currentTabIdAfterAwait := none,
          shots := fun _ => ShotResult.err, now := 5, windowUrl := "https://a/",
          windowTitle := "A" }
        "https://a/" "A" { href := "https://x/y", target := "_blank" }
        ShotResult.err).2 =
      [ClickEffect.preventDefault, ClickEffect.stopPropagation,
       ClickEffect.requestScreenshot, ClickEffect.persistStep st,
       ClickEffect.scheduleNavigate 150 true "https://x/y"] ∧
      st.url = "https://a/" ∧ st.url ≠ "https://x/y" := by
  obtain ⟨st, h1, h2, h3, h4, h5⟩ := navigation_click_ordering
    { isRecording := true, steps := [], stepCounter := 0,
      lastClickTime := 0, lastClickTarget := none,
      lastClickCoordinates := none, currentUrl := "https://a/",
      lastActionTime := 0, lastActionType := none,
      capturedPageLoads := [], clickCausedNavigation := false,
      recordingTabId := none, currentTabId := none }
    { storageRecordingTabId := none, currentTabIdAfterAwait := none,
      shots := fun _ => ShotResult.err, now := 5, windowUrl := "https://a/",
      windowTitle := "A" }
    "https://a/" "A" { href := "https://x/y", target := "_blank" }
    ShotResult.err rfl (by decide) (by decide) (by decide)
  exact ⟨st, by simpa using h1, h2, h4 (by decide)⟩

/-- A page context: the recording state together with the listener
attachment status of the recording controller and the per-element input
debounce timers (element identity paired with scheduled fire time), which in
the source live as _inputTimeout properties on the DOM elements. -/
structure PageContext where
  recState : RecordingState
  listenersAttached : Bool
  inputTimers : List (Nat × Nat)
deriving DecidableEq, Repr

/-- Input handler (createInputHandler): while recording in the owning tab,
an input event clears any pending debounce timer of the target element and
schedules a fresh one 500ms out; the Step is only produced when that timer
fires. -/
def handleInputEvent (c : PageContext) (now : Nat) (target : Nat) : PageContext :=
  if c.recState.isRecording &&
      isRecordingTab c.recState.recordingTabId c.recState.currentTabId then
    { c with inputTimers :=
        (c.inputTimers.filter (fun t => t.1 != target)) ++ [(target, now + 500)] }
  else c

/-- stopRecording from the recording controller: marks the session inactive
and detaches the listeners; pending input debounce timers are not cleared. -/
def stopRecording (c : PageContext) : PageContext :=
  if !c.recState.isRecording then c
  else { c with recState := { c.recState with isRecording := false },
                listenersAttached := false }

/-- Firing of a pending input debounce timer for an element: the timer is
spent and the debounce callback runs captureStep for an input action, which
performs no isRecording check of its own. -/
def fireInputTimer (c : PageContext) (target : Nat) (env : CaptureEnv) :
    PageContext × Option Step :=
  match c.inputTimers.find? (fun t => t.1 == target) with
  | none => (c, none)
  | some _ =>
      let r := captureStep c.recState env Action.input
      let c2 : PageContext :=
        { c with recState := r.1,
                 inputTimers := c.inputTimers.filter (fun t => t.1 != target) }
      (c2, r.2)

/-- Helper: after the input handler ran for an element, a debounce timer for
that element is pending. -/
lemma handleInputEvent_timer_pending (c : PageContext) (now target : Nat)
    (hrec : c.recState.isRecording = true)
    (htab : isRecordingTab c.recState.recordingTabId c.recState.currentTabId = true) :
    ∃ t, (handleInputEvent c now target).inputTimers.find?
      (fun t => t.1 == target) = some t := by
  simp only [handleInputEvent, hrec, htab, Bool.and_self, if_pos]
  induction c.inputTimers with
  | nil => exact ⟨(target, now + 500), by simp⟩
  | cons hd tl ih =>
    by_cases hh : hd.1 = target
    · simp only [List.filter_cons, hh, bne_self_eq_false, if_neg, Bool.false_eq_true,
        not_false_eq_true]
      exact ih
    · have hb : (hd.1 != target) = true := by simp [hh]
      have hb2 : (hd.1 == target) = false := by simp [hh]
      obtain ⟨t, htl⟩ := ih
      refine ⟨t, ?_⟩
      simpa [List.filter_cons, hb, List.find?_cons, hb2] using htl

/-- C10: an accepted input whose 500ms debounce timer is still pending when
stopRecording runs still produces and appends an input Step after recording
has stopped: stopRecording clears no pending debounce timers, and the
step-capture path performs no isRecording check of its own (its result is
invariant under the isRecording flag). -/
theorem input_step_after_stop (c : PageContext) (now target : Nat) (env : CaptureEnv)
    (hrec : c.recState.isRecording = true)
    (htab : isRecordingTab c.recState.recordingTabId c.recState.currentTabId = true)
    (hown : checkRecordingTab c.recState.recordingTabId c.recState.currentTabId
      env.storageRecordingTabId env.currentTabIdAfterAwait = true) :
    (stopRecording (handleInputEvent c now target)).recState.isRecording = false ∧
    (stopRecording (handleInputEvent c now target)).inputTimers =
      (handleInputEvent c now target).inputTimers ∧
    (∃ st, (fireInputTimer (stopRecording (handleInputEvent c now target))
        target env).2 = some st ∧ st.action = Action.input ∧
      (fireInputTimer (stopRecording (handleInputEvent c now target))
        target env).1.recState.steps = c.recState.steps ++ [st]) ∧
    (∀ b, (captureStep { c.recState with isRecording := b } env Action.input).2 =
      (captureStep c.recState env Action.input).2) := by
  have hstop : stopRecording (handleInputEvent c now target) =
      { handleInputEvent c now target with
        recState := { (handleInputEvent c now target).recState with isRecording := false },
        listenersAttached := false } := by
    have : (handleInputEvent c now target).recState.isRecording = true := by
      simp only [handleInputEvent]
      split <;> simp [hrec]
    simp [stopRecording, this]
  have hrecfields : (handleInputEvent c now target).recState = c.recState := by
    simp only [handleInputEvent]
    split <;> rfl
  refine ⟨by rw [hstop], by rw [hstop], ?_, ?_⟩
  · obtain ⟨t, hfind⟩ := handleInputEvent_timer_pending c now target hrec htab
    refine ⟨{ id := c.recState.stepCounter + 1, action := Action.input,
              timestamp := env.now, url := env.windowUrl, title := env.windowTitle,
              screenshot := acquireScreenshot Action.input env.shots }, ?_, rfl, ?_⟩
    · simp [fireInputTimer, hstop, hfind, hrecfields, captureStep, hown]
    · simp [fireInputTimer, hstop, hfind, hrecfields, captureStep, hown]
  · intro b
    cases hcb : checkRecordingTab c.recState.recordingTabId c.recState.currentTabId
        env.storageRecordingTabId env.currentTabIdAfterAwait <;>
      simp [captureStep, hcb]

/-- Witness for C10 at a concrete context: input at t=0, stop before t=500,
timer fires and appends the input Step. -/
theorem input_step_after_stop_witness :
    ∃ st, (fireInputTimer (stopRecording (handleInputEvent
        { recState :=
            { isRecording := true, steps := [], stepCounter := 0,
              lastClickTime := 0, lastClickTarget := none,
              lastClickCoordinates := none, currentUrl := "https://a/",
              lastActionTime := 0, lastActionType := none,
              capturedPageLoads := [], clickCausedNavigation := false,
              recordingTabId := none, currentTabId := none },
          listenersAttached := true, inputTimers := [] } 0 7))
        7 { storageRecordingTabId := none, currentTabIdAfterAwait := none,
            shots := fun _ => ShotResult.err, now := 600,
            windowUrl := "https://a/", windowTitle := "A" }).2 = some st ∧
      st.action = Action.input := by
  obtain ⟨h1, h2, ⟨st, h3, h4, h5⟩, h6⟩ := input_step_after_stop
    { recState :=
        { isRecording := true, steps := [], stepCounter := 0,
          lastClickTime := 0, lastClickTarget := none,
          lastClickCoordinates := none, currentUrl := "https://a/",
          lastActionTime := 0, lastActionType := none,
          capturedPageLoads := [], clickCausedNavigation := false,
          recordingTabId := none, currentTabId := none },
      listenersAttached := true, inputTimers := [] } 0 7
    { storageRecordingTabId := none, currentTabIdAfterAwait := none,
      shots := fun _ => ShotResult.err, now := 600,
      windowUrl := "https://a/", windowTitle := "A" } rfl rfl rfl
  exact ⟨st, h3, h4⟩

/-- shouldSkipPageLoad from the navigation-detection module: the persisted
clickCausedNavigation flag paired with navigationClickTime is valid when the
flag is set, the timestamp positive, and less than 5000ms old. -/
def shouldSkipPageLoad (flag : Option Bool) (navTime : Option Nat) (now : Nat) : Bool :=
  let navigationTime := navTime.getD 0
  (flag.getD false) && decide (navigationTime > 0) && decide (now - navigationTime < 5000)

/-- Outcome of the storage load handler of a freshly created context: whether
a synthetic page_load capture is started (not suppressed), and whether the
navigation flag pair was consumed and cleared in storage. -/
structure LoadOutcome where
  pageLoadCaptured : Bool
  clearedNavigationFlag : Bool
deriving DecidableEq, Repr

/-- Load handler of the content script in a fresh context (whose
capturedPageLoads set is empty), given the persisted isRecording flag and
the persisted navigation flag pair: when a recent click-caused navigation is
detected the synthetic page_load is skipped and the flag pair is reset;
otherwise recording starts with a page_load capture.  The recording-tab gate
is assumed to pass (same-tab context). -/
def onContextLoad (isRec : Bool) (flag : Option Bool) (navTime : Option Nat)
    (now : Nat) : LoadOutcome :=
  if isRec then
    let navigationTime := navTime.getD 0
    if (flag.getD false) && decide (navigationTime > 0) &&
        decide (now - navigationTime < 5000) then
      { pageLoadCaptured := false, clearedNavigationFlag := true }
    else
      { pageLoadCaptured := true, clearedNavigationFlag := false }
  else { pageLoadCaptured := false, clearedNavigationFlag := false }

/-- C8: on context load with isRecording persisted, the synthetic page_load
is suppressed exactly when the persisted clickCausedNavigation flag is set,
navigationClickTime is positive, and less than 5000ms have elapsed; when
consumed for suppression the flag and timestamp are cleared; and the inline
condition of the load handler agrees with shouldSkipPageLoad. -/
theorem page_load_suppression (flag : Option Bool) (navTime : Option Nat) (now : Nat) :
    ((onContextLoad true flag navTime now).pageLoadCaptured = false ↔
      (flag = some true ∧ navTime.getD 0 > 0 ∧ now - navTime.getD 0 < 5000)) ∧
    ((flag = some true ∧ navTime.getD 0 > 0 ∧ now - navTime.getD 0 < 5000) →
      (onContextLoad true flag navTime now).clearedNavigationFlag = true) ∧
    ((onContextLoad true flag navTime now).pageLoadCaptured = false ↔
      shouldSkipPageLoad flag navTime now = true) := by
  have hb : (flag.getD false) = true ↔ flag = some true := by
    cases flag with
    | none => simp
    | some b => cases b <;> simp
  refine ⟨?_, ?_, ?_⟩
  · simp only [onContextLoad, if_pos]
    split
    · rename_i h
      simp only [Bool.and_eq_true, decide_eq_true_eq] at h
      simp [hb.mp h.1.1, h.1.2, h.2]
    · rename_i h
      simp only [Bool.and_eq_true, decide_eq_true_eq, not_and] at h
      constructor
      · intro hfalse; simp at hfalse
      · intro ⟨h1, h2, h3⟩
        exact absurd (h (by simp [hb.mpr h1, h2]) h3) (by simp)
  · intro ⟨h1, h2, h3⟩
    simp [onContextLoad, hb.mpr h1, h2, h3]
  · simp only [onContextLoad, shouldSkipPageLoad, if_pos]
    split
    · rename_i h; simp [h]
    · rename_i h
      simp only [Bool.and_eq_true, decide_eq_true_eq] at h
      constructor
      · intro hfalse; simp at hfalse
      · intro hskip
        simp only [Bool.and_eq_true, decide_eq_true_eq] at hskip
        exact absurd hskip h

/-- Witness for C8: a page load 1200ms after a flagged navigating click is
suppressed and the flag pair cleared. -/
theorem page_load_suppression_witness :
    (onContextLoad true (some true) (some 1000) 2200).pageLoadCaptured = false ∧
    (onContextLoad true (some true) (some 1000) 2200).clearedNavigationFlag = true := by
  have h := page_load_suppression (some true) (some 1000) 2200
  exact ⟨h.1.mpr ⟨rfl, by decide, by decide⟩, h.2.1 ⟨rfl, by decide, by decide⟩⟩

/-- Session-level state relevant to page_load accounting: the active flag,
the capturedPageLoads set, and the url of the window. -/
structure SessionState where
  isRecording : Bool
  capturedPageLoads : List String
  windowUrl : String
deriving DecidableEq, Repr

/-- Operations affecting a session inside one page context. -/
inductive SessionOp
  | startOp (skip : Bool)
  | stopOp
  | navigateOp (newUrl : String)
deriving DecidableEq, Repr

/-- startRecording from the recording controller: a no-op while a session is
active; otherwise resets the session state (emptying capturedPageLoads) and,
unless asked to skip, captures the initial page_load guarded by membership
of the url in capturedPageLoads, inserting the url before the capture is
scheduled.  Returns the urls for which a page_load capture is scheduled. -/
def startRecordingSession (s : SessionState) (skip : Bool) :
    SessionState × List String :=
  if s.isRecording then (s, [])
  else
    let reset : SessionState :=
      { s with isRecording := true, capturedPageLoads := [] }
    if !skip && !(reset.capturedPageLoads.contains s.windowUrl) then
      ({ reset with capturedPageLoads :=
          reset.capturedPageLoads ++ [s.windowUrl] }, [s.windowUrl])
    else (reset, [])

/-- stopRecording at the session level: marks the session inactive. -/
def stopRecordingSession (s : SessionState) : SessionState :=
  if !s.isRecording then s else { s with isRecording := false }

/-- A navigation observed by handleNavigation: it records a navigation step,
never a page_load; for the accounting here only the tracked url changes. -/
def navigateSession (s : SessionState) (newUrl : String) : SessionState :=
  { s with windowUrl := newUrl }

/-- Trace semantics: runs session operations in order, collecting every url
for which a page_load capture is scheduled. -/
def runSessionOps (s : SessionState) : List SessionOp → SessionState × List String
  | [] => (s, [])
  | op :: rest =>
      let r1 : SessionState × List String :=
        match op with
        | .startOp skip => startRecordingSession s skip
        | .stopOp => (stopRecordingSession s, [])
        | .navigateOp u => (navigateSession s u, [])
      let r2 := runSessionOps r1.1 rest
      (r2.1, r1.2 ++ r2.2)

/-- Helper: every operation except stopOp keeps an active session active and
schedules no page_load. -/
lemma runSessionOps_active (s : SessionState) (ops : List SessionOp)
    (hrec : s.isRecording = true) (hstop : SessionOp.stopOp ∉ ops) :
    (runSessionOps s ops).2 = [] := by
  induction ops generalizing s with
  | nil => simp [runSessionOps]
  | cons op rest ih =>
    simp only [List.mem_cons, not_or] at hstop
    cases op with
    | startOp skip =>
      simp only [runSessionOps, startRecordingSession, hrec, if_pos, List.nil_append]
      exact ih s hrec hstop.2
    | stopOp => exact absurd rfl hstop.1
    | navigateOp u =>
      simp only [runSessionOps, navigateSession, List.nil_append]
      exact ih { s with windowUrl := u } hrec hstop.2

/-- C9: within one recording session (from the activating start, with no
intervening stop) at most one page_load Step is scheduled per distinct url:
the activating start schedules at most one page_load, guarded by membership
of the url in capturedPageLoads and inserting the url before the capture is
scheduled, and no later operation of the session schedules another. -/
theorem page_load_once_per_url (s : SessionState) (skip : Bool)
    (ops : List SessionOp) (hrec : s.isRecording = false)
    (hstop : SessionOp.stopOp ∉ ops) :
    (∀ u, ((runSessionOps s (SessionOp.startOp skip :: ops)).2.count u ≤ 1)) ∧
    (∀ u, u ∈ (startRecordingSession s skip).2 →
      u ∈ (startRecordingSession s skip).1.capturedPageLoads) := by
  have hstart : (startRecordingSession s skip).1.isRecording = true := by
    simp only [startRecordingSession, hrec, Bool.false_eq_true, if_neg,
      not_false_eq_true]
    split <;> rfl
  have hrest : (runSessionOps (startRecordingSession s skip).1 ops).2 = [] :=
    runSessionOps_active _ ops hstart hstop
  constructor
  · intro u
    have hrun : (runSessionOps s (SessionOp.startOp skip :: ops)).2 =
        (startRecordingSession s skip).2 := by
      simp [runSessionOps, hrest]
    rw [hrun]
    simp only [startRecordingSession, hrec, Bool.false_eq_true, if_neg,
      not_false_eq_true]
    split
    · simp [List.count_singleton]
      split <;> simp
    · simp
  · intro u hu
    simp only [startRecordingSession, hrec, Bool.false_eq_true, if_neg,
      not_false_eq_true] at hu ⊢
    split at hu
    · rename_i h
      simp only [List.mem_singleton] at hu
      subst hu
      have hskip : skip = false := by
        cases skip <;> simp_all
      simp [hskip]
    · simp at hu

/-- Witness for C9: a session starting at https://a/ followed by a click
navigation schedules exactly one page_load for https://a/. -/
theorem page_load_once_per_url_witness :
    (runSessionOps
      { isRecording := false, capturedPageLoads := [], windowUrl := "https://a/" }
      [SessionOp.startOp false, SessionOp.navigateOp "https://b/"]).2.count
        "https://a/" ≤ 1 := by
  exact (page_load_once_per_url
    { isRecording := false, capturedPageLoads := [], windowUrl := "https://a/" }
    false [SessionOp.navigateOp "https://b/"] rfl (by decide)).1 "https://a/"

/-- A DOM element node: tagName (uppercase, as the DOM reports it), id
attribute (empty when absent), raw className string, and parent reference
(none at the root).  Sibling order is index order. -/
structure DomNode where
  tag : String
  id : String
  className : String
  parent : Option Nat
deriving DecidableEq, Repr

/-- A document: element nodes indexed by position in document order. -/
structure Dom where
  nodes : List DomNode
deriving DecidableEq, Repr

/-- Node lookup with an inert default for out-of-range indices. -/
def Dom.node (d : Dom) (i : Nat) : DomNode :=
  d.nodes.getD i { tag := "", id := "", className := "", parent := none }

/-- Element indices of a document, in document order. -/
def Dom.indices (d : Dom) : List Nat := List.range d.nodes.length

/-- Characters the escapeClassName helper leaves untouched: [a-zA-Z0-9_-]. -/
def isSafeClassChar (c : Char) : Bool :=
  c.isAlpha || c.isDigit || c == '_' || c == '-'

/-- escapeClassName from generateSelector: a backslash is inserted before
every character outside [a-zA-Z0-9_-]. -/
def escapeClassName (s : String) : String :=
  String.mk (s.toList.foldr
    (fun c acc => (if isSafeClassChar c then [c] else ['\\', c]) ++ acc) [])

/-- Character-level model of String.prototype.toLowerCase. -/
def strToLower (s : String) : String :=
  String.mk (s.toList.map Char.toLower)

/-- Character-level model of String.prototype.split on a single space (empty
fragments are kept, as in JavaScript). -/
def splitOnSpaces : List Char → List (List Char)
  | [] => [[]]
  | ' ' :: rest => [] :: splitOnSpaces rest
  | c :: rest =>
      match splitOnSpaces rest with
      | [] => [[c]]
      | w :: ws => (c :: w) :: ws

/-- The class tokens of a className string: split on spaces, dropping empty
and all-whitespace tokens (the source tests c and c.trim().length > 0). -/
def splitClasses (className : String) : List String :=
  ((splitOnSpaces className.toList).map String.mk).filter
    (fun c => c != "" && c.toList.any (fun ch => !ch.isWhitespace))

/-- Escaped class token list the generator builds from a className. -/
def classSelectorList (className : String) : List String :=
  ((splitClasses className).map escapeClassName).filter (fun c => c != "")

/-- Tail characters of a CSS identifier in this model: plain characters must
be in [a-zA-Z0-9_-]; a backslash escapes the following character. -/
def cssIdentTail : List Char → Bool
  | [] => true
  | '\\' :: [] => false
  | '\\' :: _ :: rest => cssIdentTail rest
  | c :: rest => isSafeClassChar c && cssIdentTail rest

/-- Model of CSS identifier parsing: nonempty, every plain character in the
identifier set or backslash-escaped, not starting with an unescaped digit,
and not starting with a hyphen followed by a digit.  Real engines reject
selectors violating these rules with a syntax error, which
document.querySelectorAll surfaces as an exception. -/
def validCssIdent (s : String) : Bool :=
  match s.toList with
  | [] => false
  | '\\' :: rest => cssIdentTail ('\\' :: rest)
  | '-' :: [] => false
  | '-' :: c2 :: rest => !c2.isDigit && cssIdentTail (c2 :: rest)
  | c :: rest => !c.isDigit && isSafeClassChar c && cssIdentTail rest

/-- Removes the escaping backslashes of an escaped identifier. -/
def unescapeChars : List Char → List Char
  | [] => []
  | '\\' :: c :: rest => c :: unescapeChars rest
  | c :: rest => c :: unescapeChars rest

/-- String form of unescapeChars. -/
def unescapeIdent (s : String) : String := String.mk (unescapeChars s.toList)

/-- One component of a positional path selector: lowercased tag, optional id
shortcut, optional nth-of-type index. -/
structure PathComp where
  tag : String
  id : Option String
  nth : Option Nat
deriving DecidableEq, Repr

/-- The selector shapes generateSelector can produce. -/
inductive Sel
  | byId (id : String)
  | byTagClasses (tag : String) (classes : List String)
  | byPath (path : List PathComp)
deriving DecidableEq, Repr

/-- One-based position of node i among its same-tag preceding siblings, as
computed by the previousElementSibling walk of the source. -/
def nthOfType (d : Dom) (i : Nat) : Nat :=
  1 + ((List.range i).filter (fun j =>
      (d.node j).parent == (d.node i).parent &&
      (d.node j).tag == (d.node i).tag)).length

/-- Does node i match a single path component? -/
def matchesComp (d : Dom) (c : PathComp) (i : Nat) : Bool :=
  (strToLower (d.node i).tag == c.tag) &&
  (match c.id with
   | some a => (d.node i).id == a
   | none => true) &&
  (match c.nth with
   | some n => nthOfType d i == n
   | none => true)

/-- Child-combinator matching of a reversed path (deepest component first)
against a node and its parent chain. -/
def matchesRevPath (d : Dom) : List PathComp → Option Nat → Bool
  | [], _ => true
  | _ :: _, none => false
  | c :: rest, some i => matchesComp d c i && matchesRevPath d rest (d.node i).parent

/-- Does node j match a tag-plus-class-list selector?  Tags are compared
case-insensitively; each class token, unescaped, must be among the node's
classes. -/
def matchesTagClasses (d : Dom) (tag : String) (classes : List String) (j : Nat) : Bool :=
  (strToLower (d.node j).tag == tag) &&
    classes.all (fun c => (splitClasses (d.node j).className).contains (unescapeIdent c))

/-- Decidable equality for query results, used to evaluate concrete cases. -/
instance decEqExceptQuery : DecidableEq (Except Unit (List Nat))
  | Except.ok x, Except.ok y =>
      if h : x = y then isTrue (h ▸ rfl) else isFalse (fun he => h (Except.ok.inj he))
  | Except.error x, Except.error y => isTrue (by cases x; cases y; rfl)
  | Except.ok _, Except.error _ => isFalse (fun he => Except.noConfusion he)
  | Except.error _, Except.ok _ => isFalse (fun he => Except.noConfusion he)

/-- Model of document.querySelectorAll on the generated selector shapes:
selectors with invalid identifiers fail to parse, which the DOM surfaces as
an exception (Except.error); otherwise the matching element indices are
returned in document order. -/
def querySelAll (d : Dom) : Sel → Except Unit (List Nat)
  | Sel.byId i =>
      if validCssIdent i then
        Except.ok (d.indices.filter (fun j => (d.node j).id == i))
      else Except.error ()
  | Sel.byTagClasses t cs =>
      if validCssIdent t && cs.all validCssIdent then
        Except.ok (d.indices.filter (fun j => matchesTagClasses d t cs j))
      else Except.error ()
  | Sel.byPath p =>
      if p.all (fun c => validCssIdent c.tag &&
          (match c.id with | some a => validCssIdent a | none => true)) then
        Except.ok (d.indices.filter (fun j => matchesRevPath d p.reverse (some j)))
      else Except.error ()

/-- Climb of the positional fallback selector: from the element up, stopping
at HTML or at the first ancestor with an id (which becomes a tag#id
component); components carry nth-of-type only when needed. -/
def fallbackPathAux (d : Dom) : Nat → Option Nat → List PathComp → List PathComp
  | _, none, acc => acc
  | 0, some _, acc => acc
  | fuel + 1, some i, acc =>
      if (d.node i).tag == "HTML" then acc
      else if (d.node i).id != "" then
        { tag := strToLower (d.node i).tag, id := some (d.node i).id, nth := none } :: acc
      else
        let n := nthOfType d i
        fallbackPathAux d fuel (d.node i).parent
          ({ tag := strToLower (d.node i).tag, id := none,
             nth := if n > 1 then some n else none } :: acc)

/-- The positional fallback path of generateSelector. -/
def fallbackPath (d : Dom) (i : Nat) : List PathComp :=
  fallbackPathAux d (d.nodes.length + 1) (some i) []

/-- generateSelector from the element-utils module: prefer #id; otherwise
the tag plus escaped class list, but only when document.querySelectorAll
validates it as resolving to exactly this element (a parse exception is
caught and falls through); otherwise the positional nth-of-type path. -/
def generateSelector (d : Dom) (i : Nat) : Sel :=
  if (d.node i).id != "" then Sel.byId (d.node i).id
  else if (d.node i).className != "" then
    let cs := classSelectorList (d.node i).className
    if !cs.isEmpty then
      let tag := strToLower (d.node i).tag
      match querySelAll d (Sel.byTagClasses tag cs) with
      | Except.ok ms =>
          if ms == [i] then Sel.byTagClasses tag cs
          else Sel.byPath (fallbackPath d i)
      | Except.error _ => Sel.byPath (fallbackPath d i)
    else Sel.byPath (fallbackPath d i)
  else Sel.byPath (fallbackPath d i)

/-- C6 part 1: generateSelector returns the tag-plus-escaped-class selector
only when document.querySelectorAll resolves it to exactly the given element
(the unique match is the element itself); part 2: when selector validation
throws (an unparsable selector), the exception is caught and the positional
nth-of-type path selector is returned instead of propagating. -/
theorem generateSelector_class_validated (d : Dom) (i : Nat) :
    (∀ t cs, generateSelector d i = Sel.byTagClasses t cs →
      querySelAll d (Sel.byTagClasses t cs) = Except.ok [i]) ∧
    ((d.node i).id = "" →
      querySelAll d (Sel.byTagClasses (strToLower (d.node i).tag)
        (classSelectorList (d.node i).className)) = Except.error () →
      generateSelector d i = Sel.byPath (fallbackPath d i)) := by
  constructor
  · intro t cs h
    simp only [generateSelector] at h
    split at h
    · exact absurd h (by simp)
    · split at h
      · split at h
        · rename_i hcls hcs
          cases hq : querySelAll d (Sel.byTagClasses (strToLower (d.node i).tag)
              (classSelectorList (d.node i).className)) with
          | ok ms =>
            rw [hq] at h
            simp only at h
            split at h
            · rename_i hms
              have hms2 : ms = [i] := by simpa using hms
              injection h with h1 h2
              subst h1; subst h2
              rw [hq, hms2]
            · exact absurd h (by simp)
          | error e =>
            rw [hq] at h
            simp only at h
            exact absurd h (by simp)
        · exact absurd h (by simp)
      · exact absurd h (by simp)
  · intro hid herr
    simp only [generateSelector, hid, bne_self_eq_false, Bool.false_eq_true,
      if_false]
    split
    · split
      · rw [herr]
      · rfl
    · rfl

/-- Witness for C6: a unique class selector is accepted and resolves to the
element; an escaped-but-unparsable class (a digit-leading class name)
produces the positional fallback instead of an exception. -/
theorem generateSelector_class_validated_witness :
    querySelAll (Dom.mk [{ tag := "DIV", id := "", className := "box", parent := none }])
      (Sel.byTagClasses "div" ["box"]) = Except.ok [0] ∧
    generateSelector (Dom.mk [{ tag := "DIV", id := "", className := "1a", parent := none }]) 0 =
      Sel.byPath (fallbackPath
        (Dom.mk [{ tag := "DIV", id := "", className := "1a", parent := none }]) 0) := by
  constructor
  · exact (generateSelector_class_validated
      (Dom.mk [{ tag := "DIV", id := "", className := "box", parent := none }]) 0).1
      "div" ["box"] (by decide)
  · exact (generateSelector_class_validated
      (Dom.mk [{ tag := "DIV", id := "", className := "1a", parent := none }]) 0).2
      (by decide) (by decide)

/-- Helper: a filter over an index range with a unique witness is the
singleton of that witness. -/
lemma filter_range_eq_single (n : Nat) (p : Nat → Bool) (i : Nat) (hi : i < n)
    (hp : p i = true) (huniq : ∀ j, j < n → p j = true → j = i) :
    (List.range n).filter p = [i] := by
  induction n with
  | zero => omega
  | succ m ih =>
    rw [List.range_succ, List.filter_append]
    by_cases him : i = m
    · subst him
      have h1 : (List.range i).filter p = [] := by
        rw [List.filter_eq_nil_iff]
        intro j hj hpj
        have hj2 := List.mem_range.mp hj
        have := huniq j (by omega) hpj
        omega
      have h2 : [i].filter p = [i] := by
        simp [List.filter, hp]
      rw [h1, h2, List.nil_append]
    · have him2 : i < m := by
        have := huniq
        by_contra hcon
        push_neg at hcon
        omega
      have h2 : [m].filter p = [] := by
        have hpm : p m = false := by
          cases hq : p m
          · rfl
          · exact absurd (huniq m (by omega) hq) (Ne.symm him)
        simp [List.filter, hpm]
      rw [ih him2 (fun j hj hpj => huniq j (by omega) hpj), h2, List.append_nil]

/-- Counterexample for C7 as stated: the id "1" (a legal HTML id) is unique
in the document, but the produced selector does not parse under CSS query
semantics (querySelectorAll raises a syntax error), so it does not resolve
to the element. -/
theorem selector_roundtrip_counterexample :
    (((Dom.mk [{ tag := "DIV", id := "1", className := "", parent := none }]).nodes.filter
        (fun n => n.id == "1")).length = 1) ∧
    querySelAll (Dom.mk [{ tag := "DIV", id := "1", className := "", parent := none }])
      (generateSelector
        (Dom.mk [{ tag := "DIV", id := "1", className := "", parent := none }]) 0) =
      Except.error () := by
  exact ⟨by decide, by decide⟩

/-- C7 amended: for any element whose id is unique in the document and is a
valid CSS identifier, the selector produced by generateSelector resolves,
under standard CSS query semantics, to exactly that element. -/
theorem selector_roundtrip_amended (d : Dom) (i : Nat) (hi : i < d.nodes.length)
    (hid : (d.node i).id ≠ "") (hvalid : validCssIdent (d.node i).id = true)
    (huniq : ∀ j, j < d.nodes.length → (d.node j).id = (d.node i).id → j = i) :
    querySelAll d (generateSelector d i) = Except.ok [i] := by
  have hgen : generateSelector d i = Sel.byId (d.node i).id := by
    simp [generateSelector, hid]
  rw [hgen]
  simp only [querySelAll, hvalid, if_pos]
  congr 1
  apply filter_range_eq_single d.nodes.length _ i hi
  · simp
  · intro j hj hpj
    exact huniq j hj (by simpa using hpj)

/-- Witness for C7 amended: a button with the unique id submit-btn resolves
to itself. -/
theorem selector_roundtrip_amended_witness :
    querySelAll
      (Dom.mk [{ tag := "BUTTON", id := "submit-btn", className := "", parent := none }])
      (generateSelector
        (Dom.mk [{ tag := "BUTTON", id := "submit-btn", className := "", parent := none }]) 0) =
      Except.ok [0] := by
  apply selector_roundtrip_amended
    (Dom.mk [{ tag := "BUTTON", id := "submit-btn", className := "", parent := none }]) 0
    (by decide) (by decide) (by decide)
  intro j hj hpj
  simp only [List.length_cons, List.length_nil] at hj
  omega

end Scribe
